import Mathlib

/-!
Shallow embedding of `src/src/application.c` from the
`twr-radio-push-button-uart` firmware repository.

The application is single-threaded and event-driven: SDK drivers deliver
events (button edge events, sensor update/error events, a scheduler task)
into C handler functions that mutate a small set of global variables and
write text messages to UART2.  We model the global state as an explicit
`AppState` record, each handler as a pure state-transition function
returning the list of messages it writes, external sensor reads as
`Option` parameters (`none` = read failure), and the monotonic tick
counter (`twr_tick_get`) as a `Nat` parameter.

C `float` values take part in IEEE-754 comparisons against `NAN` in the
temperature handler, so floats are embedded as `TFloat`: either `nan` or
an exact rational value, with the IEEE comparison semantics (`!=` is true
whenever either side is NaN; ordered comparisons are false whenever either
side is NaN).  The `uint16_t` button counters are embedded as `Nat`
reduced modulo `2 ^ 16` at each increment.
-/

/-- SERVICE_MODE_INTERVAL from application.c: `15 * 60 * 1000`. -/
def SERVICE_MODE_INTERVAL : Nat := 15 * 60 * 1000

/-- BATTERY_UPDATE_INTERVAL from application.c: `60 * 60 * 1000`. -/
def BATTERY_UPDATE_INTERVAL : Nat := 60 * 60 * 1000

/-- TEMPERATURE_PUB_INTERVAL from application.c: `15 * 60 * 1000`. -/
def TEMPERATURE_PUB_INTERVAL : Nat := 15 * 60 * 1000

/-- TEMPERATURE_PUB_DIFFERENCE from application.c: `0.2f`, embedded exactly. -/
def TEMPERATURE_PUB_DIFFERENCE : ℚ := 1 / 5

/-- TEMPERATURE_UPDATE_SERVICE_INTERVAL from application.c: `1 * 1000`. -/
def TEMPERATURE_UPDATE_SERVICE_INTERVAL : Nat := 1 * 1000

/-- TEMPERATURE_UPDATE_NORMAL_INTERVAL from application.c: `10 * 1000`. -/
def TEMPERATURE_UPDATE_NORMAL_INTERVAL : Nat := 10 * 1000

/-- ACCELEROMETER_UPDATE_SERVICE_INTERVAL from application.c: `1 * 1000`. -/
def ACCELEROMETER_UPDATE_SERVICE_INTERVAL : Nat := 1 * 1000

/-- ACCELEROMETER_UPDATE_NORMAL_INTERVAL from application.c: `10 * 1000`. -/
def ACCELEROMETER_UPDATE_NORMAL_INTERVAL : Nat := 10 * 1000

/-- Modulus of the C type `uint16_t` of the two button counters. -/
def UINT16_MOD : Nat := 2 ^ 16

/-- A C `float` value as used by the temperature publish filter: either a
NaN or an exact numeric value.  Rounding plays no role in any claim, so
numeric values are kept exact. -/
inductive TFloat where
  | nan : TFloat
  | val : ℚ → TFloat
deriving DecidableEq

/-- IEEE-754 `!=` on floats: true whenever either operand is NaN
(in particular `NAN != NAN` is true), otherwise numeric disequality. -/
def fneq : TFloat → TFloat → Bool
  | TFloat.nan, _ => true
  | _, TFloat.nan => true
  | TFloat.val a, TFloat.val b => decide (a ≠ b)

/-- IEEE-754 `>=` on floats: false whenever either operand is NaN,
otherwise the numeric comparison. -/
def fge : TFloat → TFloat → Bool
  | TFloat.nan, _ => false
  | _, TFloat.nan => false
  | TFloat.val a, TFloat.val b => decide (a ≥ b)

/-- Float subtraction, NaN-propagating. -/
def fsub : TFloat → TFloat → TFloat
  | TFloat.nan, _ => TFloat.nan
  | _, TFloat.nan => TFloat.nan
  | TFloat.val a, TFloat.val b => TFloat.val (a - b)

/-- `fabsf`, NaN-propagating. -/
def fabsf : TFloat → TFloat
  | TFloat.nan => TFloat.nan
  | TFloat.val a => TFloat.val |a|

/-- The six dice faces plus the unknown face (`twr_dice_face_t`;
`TWR_DICE_FACE_UNKNOWN` is 0, the faces are 1..6). -/
inductive Face where
  | unknown : Face
  | face1 : Face
  | face2 : Face
  | face3 : Face
  | face4 : Face
  | face5 : Face
  | face6 : Face
deriving DecidableEq

/-- A 3-axis acceleration sample in g units (`twr_lis2dh12_result_g_t`). -/
structure GVector where
  x_axis : ℚ
  y_axis : ℚ
  z_axis : ℚ
deriving DecidableEq

/-- Messages written to UART2 by the handlers.  Transport formatting is a
collaborator concern; each constructor records which `sprintf` call in
application.c produced it and the numeric payload. -/
inductive Msg where
  | button : Nat → Msg
  | buttonHold : Nat → Msg
  | buttonHoldDuration : Int → Msg
  | battery : ℚ → Msg
  | temperature : ℚ → Msg
  | orientation : Face → Msg
deriving DecidableEq

/-- The global mutable state of application.c: the button counters and
hold bookkeeping, the temperature publish gate, the last reported dice
face, the three configured sensor update intervals, and the liveness of
the one-shot service-mode exit task in the scheduler. -/
structure AppState where
  button_click_count : Nat
  button_hold_count : Nat
  tick_start_button_press : Nat
  button_hold_event : Bool
  tick_temperature_report : Nat
  last_published_temperature : TFloat
  last_face : Face
  tmp112_update_interval : Nat
  lis2dh12_update_interval : Nat
  battery_update_interval : Nat
  exit_task_registered : Bool
deriving DecidableEq

/-- Button driver event codes delivered to `button_event_handler`
(`twr_button_event_t`). -/
inductive TwrButtonEvent where
  | click : TwrButtonEvent
  | hold : TwrButtonEvent
  | press : TwrButtonEvent
  | release : TwrButtonEvent
deriving DecidableEq

/-- Thermometer driver event codes (`twr_tmp112_event_t`). -/
inductive Tmp112Event where
  | update : Tmp112Event
  | error : Tmp112Event
deriving DecidableEq

/-- Accelerometer driver event codes (`twr_lis2dh12_event_t`). -/
inductive Lis2dh12Event where
  | update : Lis2dh12Event
  | error : Lis2dh12Event
deriving DecidableEq

/-- Battery module event codes (`twr_module_battery_event_t`). -/
inductive BatteryEvent where
  | update : BatteryEvent
deriving DecidableEq

/-- `button_event_handler` from application.c, lines 41-90.  `now` is the
value `twr_tick_get()` would return during this invocation.  The two
`uint16_t` counters increment modulo `2 ^ 16`. -/
def button_event_handler (s : AppState) (event : TwrButtonEvent) (now : Nat) :
    AppState × List Msg :=
  match event with
  | TwrButtonEvent.click =>
      let c := (s.button_click_count + 1) % UINT16_MOD
      ({ s with button_click_count := c }, [Msg.button c])
  | TwrButtonEvent.hold =>
      let h := (s.button_hold_count + 1) % UINT16_MOD
      ({ s with button_hold_count := h, button_hold_event := true },
       [Msg.buttonHold h])
  | TwrButtonEvent.press =>
      ({ s with button_hold_event := false, tick_start_button_press := now }, [])
  | TwrButtonEvent.release =>
      if s.button_hold_event then
        (s, [Msg.buttonHoldDuration ((now : Int) - (s.tick_start_button_press : Int))])
      else
        (s, [])

/-- `battery_event_handler` from application.c, lines 93-108.  The battery
voltage read is `none` when `twr_module_battery_get_voltage` fails.  The
handler touches no application state. -/
def battery_event_handler (event : BatteryEvent) (voltage : Option ℚ) : List Msg :=
  match event, voltage with
  | BatteryEvent.update, some v => [Msg.battery v]
  | BatteryEvent.update, none => []

/-- `tmp112_event_handler` from application.c, lines 111-164.  `reading`
is `none` when `twr_tmp112_get_temperature_celsius` fails; `now` is
`twr_tick_get()`.  The comparison `last_published_temperature != NAN` and
the `fabsf ... >= TEMPERATURE_PUB_DIFFERENCE` test use IEEE float
semantics via `fneq`/`fge`. -/
def tmp112_event_handler (s : AppState) (event : Tmp112Event) (now : Nat)
    (reading : Option ℚ) : AppState × List Msg :=
  match event with
  | Tmp112Event.error => (s, [])
  | Tmp112Event.update =>
    match reading with
    | none => (s, [])
    | some temperature =>
      let publish0 : Bool := decide (now ≥ s.tick_temperature_report)
      let publish : Bool :=
        if fneq s.last_published_temperature TFloat.nan then
          if fge (fabsf (fsub (TFloat.val temperature) s.last_published_temperature))
              (TFloat.val TEMPERATURE_PUB_DIFFERENCE) then
            true
          else
            publish0
        else
          publish0
      if publish then
        ({ s with tick_temperature_report := now + TEMPERATURE_PUB_INTERVAL,
                  last_published_temperature := TFloat.val temperature },
         [Msg.temperature temperature])
      else
        (s, [])

/-- Modelled from the spec: the SDK orientation classifier (`twr_dice`,
whose source is not under src/).  Per the spec it maps a 3-axis sample to
the face of the axis direction with the largest magnitude component, or
`unknown` when no component exceeds a minimum confidence magnitude (the
spec leaves the magnitude unspecified; a fixed representative value is
used).  The assignment of the six labels to axis directions is likewise
representative; no claim depends on it. -/
def DICE_CONFIDENCE : ℚ := 3 / 10

/-- Modelled from the spec: `twr_dice_feed_vectors` followed by
`twr_dice_get_face` as a single-sample pure classification (the spec
states a single-sample decision with no temporal smoothing). -/
def twr_dice_get_face (g : GVector) : Face :=
  let ax := |g.x_axis|
  let ay := |g.y_axis|
  let az := |g.z_axis|
  if az ≥ ax ∧ az ≥ ay then
    if az < DICE_CONFIDENCE then Face.unknown
    else if g.z_axis > 0 then Face.face1 else Face.face6
  else if ay ≥ ax then
    if ay < DICE_CONFIDENCE then Face.unknown
    else if g.y_axis > 0 then Face.face2 else Face.face5
  else
    if ax < DICE_CONFIDENCE then Face.unknown
    else if g.x_axis > 0 then Face.face3 else Face.face4

/-- `lis2dh12_event_handler` from application.c, lines 167-205.  `reading`
is `none` when `twr_lis2dh12_get_result_g` fails.  On success the sample
is fed to the dice and the classified face is compared with the static
`last_face`. -/
def lis2dh12_event_handler (s : AppState) (event : Lis2dh12Event)
    (reading : Option GVector) : AppState × List Msg :=
  match event with
  | Lis2dh12Event.error => (s, [])
  | Lis2dh12Event.update =>
    match reading with
    | none => (s, [])
    | some g =>
      let face := twr_dice_get_face g
      if s.last_face ≠ face then
        ({ s with last_face := face }, [Msg.orientation face])
      else
        (s, [])

/-- `exit_service_mode_task` from application.c, lines 208-218: set both
sensor update intervals to their normal values and unregister the task
itself. -/
def exit_service_mode_task (s : AppState) : AppState :=
  { s with tmp112_update_interval := TEMPERATURE_UPDATE_NORMAL_INTERVAL,
           lis2dh12_update_interval := ACCELEROMETER_UPDATE_NORMAL_INTERVAL,
           exit_task_registered := false }

/-- The application state right after `application_init` (lines 220-254):
zeroed counters and flags (C zero-initializes file-scope globals), the
publish gate with `tick_temperature_report = 0` and
`last_published_temperature = NAN`, `last_face` unknown, service update
intervals on both sensors, the battery interval, and the one-shot exit
task registered (with delay `SERVICE_MODE_INTERVAL`). -/
def application_init_state : AppState :=
  { button_click_count := 0,
    button_hold_count := 0,
    tick_start_button_press := 0,
    button_hold_event := false,
    tick_temperature_report := 0,
    last_published_temperature := TFloat.nan,
    last_face := Face.unknown,
    tmp112_update_interval := TEMPERATURE_UPDATE_SERVICE_INTERVAL,
    lis2dh12_update_interval := ACCELEROMETER_UPDATE_SERVICE_INTERVAL,
    battery_update_interval := BATTERY_UPDATE_INTERVAL,
    exit_task_registered := true }

/-- One external stimulus delivered to the application: a button driver
event, a battery event, a thermometer event, an accelerometer event, or
the scheduler invoking the service-mode exit task. -/
inductive Event where
  | buttonEv : TwrButtonEvent → Nat → Event
  | batteryEv : Option ℚ → Event
  | tmp112Ev : Tmp112Event → Nat → Option ℚ → Event
  | lis2dh12Ev : Lis2dh12Event → Option GVector → Event
  | schedulerFiresExitTask : Event
deriving DecidableEq

/-- Dispatch one event into the corresponding handler.  The scheduler
invokes the exit task only while its registration is live; an
unregistered task is never run. -/
def step (s : AppState) : Event → AppState × List Msg
  | Event.buttonEv e now => button_event_handler s e now
  | Event.batteryEv v => (s, battery_event_handler BatteryEvent.update v)
  | Event.tmp112Ev e now r => tmp112_event_handler s e now r
  | Event.lis2dh12Ev e r => lis2dh12_event_handler s e r
  | Event.schedulerFiresExitTask =>
      if s.exit_task_registered then (exit_service_mode_task s, []) else (s, [])

/-- Run a sequence of events, accumulating the emitted messages. -/
def run (s : AppState) : List Event → AppState × List Msg
  | [] => (s, [])
  | e :: evs =>
      let p := step s e
      let q := run p.1 evs
      (q.1, p.2 ++ q.2)

/-- The spec's emission condition for the temperature publish gate, stated
in the spec's own words: emit iff there was no prior emission, or the tick
reached the next allowed emission tick, or a prior emission exists and the
absolute change from the last emitted value reaches the minimum delta.
"No prior emission" is represented by the gate's absent marker
`last_published_temperature = nan`. -/
def spec_emit_condition (s : AppState) (now : Nat) (v : ℚ) : Prop :=
  s.last_published_temperature = TFloat.nan ∨
  now ≥ s.tick_temperature_report ∨
  (∃ q, s.last_published_temperature = TFloat.val q ∧
    |v - q| ≥ TEMPERATURE_PUB_DIFFERENCE)

/-- The faces carried by the orientation messages of a message list, in
order. -/
def orientationMsgs (ms : List Msg) : List Face :=
  ms.filterMap fun m =>
    match m with
    | Msg.orientation f => some f
    | _ => none

/-- Raw button edge/timer stimuli feeding the SDK button driver: a press
edge, a release edge, or the expiry of the hold timer armed by a press,
each at a tick. -/
inductive RawButton where
  | rawPress : Nat → RawButton
  | rawRelease : Nat → RawButton
  | rawHoldElapse : Nat → RawButton
deriving DecidableEq

/-- Phases of the SDK button driver state machine. -/
inductive DriverPhase where
  | idle : DriverPhase
  | pressed : DriverPhase
  | heldReported : DriverPhase
deriving DecidableEq

/-- Modelled from the spec: the SDK button driver (`twr_button`, whose
source is not under src/).  Per the spec's FSM: a press in Idle records
the press and signals the press event; the hold timer expiring while
Pressed signals the hold event; a release while Pressed (hold not yet
signalled) yields a click, while a release after the hold was signalled
yields only the release; a release while Idle is ignored.  The driver
delivers the release event before the click event, each stamped with the
tick of the stimulus. -/
def twr_button_driver (ph : DriverPhase) :
    RawButton → DriverPhase × List (TwrButtonEvent × Nat)
  | RawButton.rawPress t =>
      match ph with
      | DriverPhase.idle => (DriverPhase.pressed, [(TwrButtonEvent.press, t)])
      | _ => (ph, [])
  | RawButton.rawHoldElapse t =>
      match ph with
      | DriverPhase.pressed => (DriverPhase.heldReported, [(TwrButtonEvent.hold, t)])
      | _ => (ph, [])
  | RawButton.rawRelease t =>
      match ph with
      | DriverPhase.pressed =>
          (DriverPhase.idle,
           [(TwrButtonEvent.release, t), (TwrButtonEvent.click, t)])
      | DriverPhase.heldReported => (DriverPhase.idle, [(TwrButtonEvent.release, t)])
      | DriverPhase.idle => (DriverPhase.idle, [])

/-- Deliver a list of driver events into `button_event_handler` in order,
accumulating the emitted messages. -/
def deliver (s : AppState) : List (TwrButtonEvent × Nat) → AppState × List Msg
  | [] => (s, [])
  | et :: rest =>
      let p := button_event_handler s et.1 et.2
      let q := deliver p.1 rest
      (q.1, p.2 ++ q.2)

/-- One raw stimulus through the driver and then the application handler. -/
def button_system_step (d : DriverPhase) (s : AppState) (r : RawButton) :
    DriverPhase × AppState × List Msg :=
  let dp := twr_button_driver d r
  let aq := deliver s dp.2
  (dp.1, aq.1, aq.2)

/-- Run a sequence of raw button stimuli through driver and handler. -/
def button_system_run (d : DriverPhase) (s : AppState) :
    List RawButton → DriverPhase × AppState × List Msg
  | [] => (d, s, [])
  | r :: rs =>
      let p := button_system_step d s r
      let q := button_system_run p.1 p.2.1 rs
      (q.1, q.2.1, p.2.2 ++ q.2.2)

/-- C2: the guard `last_published_temperature != NAN` in the publish
filter evaluates to true on every execution — for every possible value of
the compared float, including the initial NaN before any temperature was
ever published — so it never distinguishes the no-prior-emission case. -/
theorem nan_guard_always_true :
    (∀ f : TFloat, fneq f TFloat.nan = true) ∧
    (∀ s : AppState, fneq s.last_published_temperature TFloat.nan = true) ∧
    fneq application_init_state.last_published_temperature TFloat.nan = true := by
  refine ⟨fun f => ?_, fun s => ?_, rfl⟩
  · cases f <;> rfl
  · cases h : s.last_published_temperature <;> simp [fneq]

/-- C7: when a sensor read fails (`none`) or an error event is delivered,
the thermometer, accelerometer and battery handlers emit nothing and leave
the application state unchanged. -/
theorem read_failure_is_silent_noop :
    (∀ s now, tmp112_event_handler s Tmp112Event.update now none = (s, [])) ∧
    (∀ s now r, tmp112_event_handler s Tmp112Event.error now r = (s, [])) ∧
    (∀ s, lis2dh12_event_handler s Lis2dh12Event.update none = (s, [])) ∧
    (∀ s r, lis2dh12_event_handler s Lis2dh12Event.error r = (s, [])) ∧
    battery_event_handler BatteryEvent.update none = [] :=
  ⟨fun _ _ => rfl, fun _ _ _ => rfl, fun _ => rfl, fun _ _ => rfl, rfl⟩

/-- C10: firing the service-mode exit task changes only the thermometer
and accelerometer update intervals (and its own registration); battery
interval, counters, publish gate and orientation state are untouched, and
it emits no message. -/
theorem exit_task_frame :
    ∀ s : AppState,
      (exit_service_mode_task s).battery_update_interval = s.battery_update_interval ∧
      (exit_service_mode_task s).button_click_count = s.button_click_count ∧
      (exit_service_mode_task s).button_hold_count = s.button_hold_count ∧
      (exit_service_mode_task s).tick_start_button_press = s.tick_start_button_press ∧
      (exit_service_mode_task s).button_hold_event = s.button_hold_event ∧
      (exit_service_mode_task s).tick_temperature_report = s.tick_temperature_report ∧
      (exit_service_mode_task s).last_published_temperature = s.last_published_temperature ∧
      (exit_service_mode_task s).last_face = s.last_face ∧
      (exit_service_mode_task s).tmp112_update_interval = TEMPERATURE_UPDATE_NORMAL_INTERVAL ∧
      (exit_service_mode_task s).lis2dh12_update_interval = ACCELEROMETER_UPDATE_NORMAL_INTERVAL ∧
      (step s Event.schedulerFiresExitTask).2 = [] := by
  intro s
  refine ⟨rfl, rfl, rfl, rfl, rfl, rfl, rfl, rfl, rfl, rfl, ?_⟩
  by_cases h : s.exit_task_registered = true <;> simp [step, h]

/-- C6 counterexample: with the click counter at 65535 (the maximum of
`uint16_t`), one more click event takes it to 0, not 65535 — the counter
wraps instead of saturating; likewise for the hold counter. -/
theorem counter_wraps_at_uint16_max :
    (button_event_handler
        { application_init_state with button_click_count := 65535 }
        TwrButtonEvent.click 0).1.button_click_count = 0 ∧
    (button_event_handler
        { application_init_state with button_hold_count := 65535 }
        TwrButtonEvent.hold 0).1.button_hold_count = 0 ∧
    (0 : Nat) ≠ 65535 := by
  refine ⟨rfl, rfl, by decide⟩

/-- C6 amended: on every click and hold event the corresponding counter is
incremented modulo `2 ^ 16` — it wraps around to zero on the increment
past the maximum representable value rather than saturating. -/
theorem counters_increment_mod_uint16 :
    ∀ s now,
      (button_event_handler s TwrButtonEvent.click now).1.button_click_count
        = (s.button_click_count + 1) % UINT16_MOD ∧
      (button_event_handler s TwrButtonEvent.hold now).1.button_hold_count
        = (s.button_hold_count + 1) % UINT16_MOD :=
  fun _ _ => ⟨rfl, rfl⟩

/-- C1: for every temperature sample `v` arriving at tick `now` at a
reachable gate state (before the first emission `tick_temperature_report`
is still 0), a message is emitted if and only if there was no prior
emission, or `now` reached the next allowed emission tick, or a prior
emission exists and the absolute change reaches 0.2; on emission the gate
records `v` and allows the next time-triggered emission at
`now + TEMPERATURE_PUB_INTERVAL` (900000 ticks).  In particular, from the
fresh gate a first sample (here at tick 100) always emits; a sample 10
ticks after that emission with delta 0.05 does not emit; and a sample with
delta 0.25 from the last emitted value emits long before the interval
elapses. -/
theorem temperature_publish_gate (s : AppState) (now : Nat) (v : ℚ)
    (hreach : s.last_published_temperature = TFloat.nan →
      s.tick_temperature_report = 0) :
    (((tmp112_event_handler s Tmp112Event.update now (some v)).2 ≠ [] ↔
      spec_emit_condition s now v) ∧
    (spec_emit_condition s now v →
      (tmp112_event_handler s Tmp112Event.update now (some v)).1.last_published_temperature
          = TFloat.val v ∧
      (tmp112_event_handler s Tmp112Event.update now (some v)).1.tick_temperature_report
          = now + TEMPERATURE_PUB_INTERVAL ∧
      (tmp112_event_handler s Tmp112Event.update now (some v)).2
          = [Msg.temperature v])) ∧
    (tmp112_event_handler application_init_state Tmp112Event.update 100 (some 25)).2
        = [Msg.temperature 25] ∧
    (tmp112_event_handler
        (tmp112_event_handler application_init_state Tmp112Event.update 100 (some 25)).1
        Tmp112Event.update 110 (some (25 + 1/20))).2 = [] ∧
    (tmp112_event_handler
        (tmp112_event_handler application_init_state Tmp112Event.update 100 (some 25)).1
        Tmp112Event.update 120 (some (25 + 1/4))).2 = [Msg.temperature (25 + 1/4)] := by
  refine ⟨?_, by decide, ?_, ?_⟩
  rotate_left
  · norm_num [tmp112_event_handler, application_init_state, fneq, fge, fsub, fabsf,
      TEMPERATURE_PUB_DIFFERENCE, TEMPERATURE_PUB_INTERVAL]
    rw [show |(1 : ℚ) / 20| = 1 / 20 from abs_of_nonneg (by norm_num)]
    norm_num
  · norm_num [tmp112_event_handler, application_init_state, fneq, fge, fsub, fabsf,
      TEMPERATURE_PUB_DIFFERENCE, TEMPERATURE_PUB_INTERVAL]
    rw [show |(1 : ℚ) / 4| = 1 / 4 from abs_of_nonneg (by norm_num)]
    norm_num
  cases hlast : s.last_published_temperature with
  | nan =>
      have hrep := hreach hlast
      constructor
      · constructor
        · intro _
          exact Or.inl hlast
        · intro _
          simp [tmp112_event_handler, hlast, hrep, fneq, fge, fsub, fabsf]
      · intro _
        simp [tmp112_event_handler, hlast, hrep, fneq, fge, fsub, fabsf]
  | val q =>
      by_cases hdelta : |v - q| ≥ TEMPERATURE_PUB_DIFFERENCE
      · constructor
        · constructor
          · intro _
            exact Or.inr (Or.inr ⟨q, hlast, hdelta⟩)
          · intro _
            simp [tmp112_event_handler, hlast, fneq, fge, fsub, fabsf, hdelta]
        · intro _
          simp [tmp112_event_handler, hlast, fneq, fge, fsub, fabsf, hdelta]
      · by_cases htime : now ≥ s.tick_temperature_report
        · constructor
          · constructor
            · intro _
              exact Or.inr (Or.inl htime)
            · intro _
              simp [tmp112_event_handler, hlast, fneq, fge, fsub, fabsf, hdelta, htime]
          · intro _
            simp [tmp112_event_handler, hlast, fneq, fge, fsub, fabsf, hdelta, htime]
        · constructor
          · constructor
            · intro hne
              exfalso
              apply hne
              simp [tmp112_event_handler, hlast, fneq, fge, fsub, fabsf, hdelta, htime]
            · intro hcond
              exfalso
              rcases hcond with h1 | h2 | ⟨q2, hq2, hd2⟩
              · rw [hlast] at h1
                exact TFloat.noConfusion h1
              · exact htime h2
              · rw [hlast] at hq2
                injection hq2 with hq2e
                rw [← hq2e] at hd2
                exact hdelta hd2
          · intro hcond
            exfalso
            rcases hcond with h1 | h2 | ⟨q2, hq2, hd2⟩
            · rw [hlast] at h1
              exact TFloat.noConfusion h1
            · exact htime h2
            · rw [hlast] at hq2
              injection hq2 with hq2e
              rw [← hq2e] at hd2
              exact hdelta hd2

/-- C1 witness: the very first sample (gate fresh from `application_init`)
at tick 7 with value 25 emits, and the gate records the value and the next
allowed tick. -/
theorem temperature_publish_gate_witness :
    ((tmp112_event_handler application_init_state Tmp112Event.update 7 (some 25)).2 ≠ [] ↔
      spec_emit_condition application_init_state 7 25) ∧
    (spec_emit_condition application_init_state 7 25 →
      (tmp112_event_handler application_init_state Tmp112Event.update 7 (some 25)).1.last_published_temperature
          = TFloat.val 25 ∧
      (tmp112_event_handler application_init_state Tmp112Event.update 7 (some 25)).1.tick_temperature_report
          = 7 + TEMPERATURE_PUB_INTERVAL ∧
      (tmp112_event_handler application_init_state Tmp112Event.update 7 (some 25)).2
          = [Msg.temperature 25]) :=
  (temperature_publish_gate application_init_state 7 25 (fun _ => rfl)).1

/-- C8: for each successfully read acceleration sample, an orientation
message is emitted exactly when the classified face differs from the last
reported face; after processing a sample the last reported face always
equals the classified face (so it is updated on emission), and processing
the same sample again immediately afterwards emits nothing. -/
theorem orientation_reports_on_face_change :
    (∀ (s : AppState) (g : GVector),
      ((lis2dh12_event_handler s Lis2dh12Event.update (some g)).2 ≠ [] ↔
        twr_dice_get_face g ≠ s.last_face) ∧
      (lis2dh12_event_handler s Lis2dh12Event.update (some g)).1.last_face
        = twr_dice_get_face g ∧
      (twr_dice_get_face g ≠ s.last_face →
        (lis2dh12_event_handler s Lis2dh12Event.update (some g)).2
          = [Msg.orientation (twr_dice_get_face g)])) ∧
    (∀ (s : AppState) (g : GVector),
      lis2dh12_event_handler
          (lis2dh12_event_handler s Lis2dh12Event.update (some g)).1
          Lis2dh12Event.update (some g)
        = ((lis2dh12_event_handler s Lis2dh12Event.update (some g)).1, [])) := by
  have hone : ∀ (s : AppState) (g : GVector),
      ((lis2dh12_event_handler s Lis2dh12Event.update (some g)).2 ≠ [] ↔
        twr_dice_get_face g ≠ s.last_face) ∧
      (lis2dh12_event_handler s Lis2dh12Event.update (some g)).1.last_face
        = twr_dice_get_face g ∧
      (twr_dice_get_face g ≠ s.last_face →
        (lis2dh12_event_handler s Lis2dh12Event.update (some g)).2
          = [Msg.orientation (twr_dice_get_face g)]) := by
    intro s g
    by_cases h : s.last_face = twr_dice_get_face g
    · simp [lis2dh12_event_handler, h]
    · simp [lis2dh12_event_handler, h, Ne.symm h]
  refine ⟨hone, fun s g => ?_⟩
  have hlast := (hone s g).2.1
  generalize hs1 : (lis2dh12_event_handler s Lis2dh12Event.update (some g)).1 = s1 at hlast ⊢
  simp [lis2dh12_event_handler, hlast]

/-- C8 witness: a flat sample classifies to a face distinct from the
initial unknown face, so from the fresh state it is reported once, with
the last reported face updated to it. -/
theorem orientation_reports_on_face_change_witness :
    (lis2dh12_event_handler application_init_state Lis2dh12Event.update
        (some { x_axis := 0, y_axis := 0, z_axis := 1 })).2
      = [Msg.orientation (twr_dice_get_face { x_axis := 0, y_axis := 0, z_axis := 1 })] :=
  ((orientation_reports_on_face_change.1 application_init_state
      { x_axis := 0, y_axis := 0, z_axis := 1 }).2.2)
    (by
      norm_num [twr_dice_get_face, application_init_state, DICE_CONFIDENCE]
      decide)

/-- Helper: the button handler never emits an orientation message and
never changes the last reported face. -/
theorem button_no_orientation (s : AppState) (e : TwrButtonEvent) (now : Nat) :
    orientationMsgs (button_event_handler s e now).2 = [] ∧
    (button_event_handler s e now).1.last_face = s.last_face := by
  cases e with
  | click => simp [button_event_handler, orientationMsgs]
  | hold => simp [button_event_handler, orientationMsgs]
  | press => simp [button_event_handler, orientationMsgs]
  | release =>
      simp only [button_event_handler]
      split <;> simp [orientationMsgs]

/-- Helper: the thermometer handler never emits an orientation message and
never changes the last reported face. -/
theorem tmp112_no_orientation (s : AppState) (e : Tmp112Event) (now : Nat)
    (r : Option ℚ) :
    orientationMsgs (tmp112_event_handler s e now r).2 = [] ∧
    (tmp112_event_handler s e now r).1.last_face = s.last_face := by
  cases e with
  | error => simp [tmp112_event_handler, orientationMsgs]
  | update =>
      cases r with
      | none => simp [tmp112_event_handler, orientationMsgs]
      | some t =>
          simp only [tmp112_event_handler]
          repeat' split
          all_goals simp [orientationMsgs]

/-- Helper: one dispatched event from a state whose last reported face is
unknown either emits no orientation message and keeps the face unknown, or
emits exactly one orientation message carrying a face other than
unknown. -/
theorem step_keeps_unknown_or_reports (s : AppState) (e : Event)
    (h : s.last_face = Face.unknown) :
    (orientationMsgs (step s e).2 = [] ∧ (step s e).1.last_face = Face.unknown) ∨
    (∃ f, f ≠ Face.unknown ∧ orientationMsgs (step s e).2 = [f]) := by
  cases e with
  | buttonEv be now =>
      left
      have hb := button_no_orientation s be now
      exact ⟨hb.1, hb.2.trans h⟩
  | batteryEv v =>
      left
      constructor
      · cases v <;> simp [step, battery_event_handler, orientationMsgs]
      · simp [step, h]
  | tmp112Ev te now r =>
      left
      have ht := tmp112_no_orientation s te now r
      exact ⟨ht.1, ht.2.trans h⟩
  | lis2dh12Ev le r =>
      cases le with
      | error =>
          left
          simp [step, lis2dh12_event_handler, orientationMsgs, h]
      | update =>
          cases r with
          | none =>
              left
              simp [step, lis2dh12_event_handler, orientationMsgs, h]
          | some g =>
              by_cases hf : twr_dice_get_face g = Face.unknown
              · left
                simp [step, lis2dh12_event_handler, orientationMsgs, h, hf]
              · right
                refine ⟨twr_dice_get_face g, hf, ?_⟩
                simp [step, lis2dh12_event_handler, orientationMsgs, h, Ne.symm hf]
  | schedulerFiresExitTask =>
      left
      by_cases hr : s.exit_task_registered = true <;>
        simp [step, exit_service_mode_task, orientationMsgs, h, hr]

/-- Helper: unfolding one event of `run`. -/
theorem run_cons (s : AppState) (e : Event) (evs : List Event) :
    run s (e :: evs)
      = ((run (step s e).1 evs).1, (step s e).2 ++ (run (step s e).1 evs).2) := rfl

/-- Helper: `orientationMsgs` distributes over append. -/
theorem orientationMsgs_append (a b : List Msg) :
    orientationMsgs (a ++ b) = orientationMsgs a ++ orientationMsgs b := by
  simp [orientationMsgs]

/-- Helper: in any run from a state whose last reported face is unknown,
the first orientation message carries a face other than unknown. -/
theorem run_first_orientation_face (evs : List Event) : ∀ (s : AppState),
    s.last_face = Face.unknown →
    ∀ f, (orientationMsgs (run s evs).2).head? = some f → f ≠ Face.unknown := by
  induction evs with
  | nil =>
      intro s h f hf
      simp [run, orientationMsgs] at hf
  | cons e evs ih =>
      intro s h f hf
      rw [run_cons] at hf
      simp only [orientationMsgs_append] at hf
      rcases step_keeps_unknown_or_reports s e h with ⟨hm, hl⟩ | ⟨g, hg, hm⟩
      · rw [hm] at hf
        simp only [List.nil_append] at hf
        exact ih (step s e).1 hl f hf
      · rw [hm] at hf
        simp only [List.cons_append, List.head?_cons, Option.some.injEq] at hf
        exact hf ▸ hg

/-- C9: the last reported face starts out unknown after
`application_init`; a sample classifying to unknown while the last
reported face is unknown emits nothing and changes nothing; and in every
run from the initial state the first orientation message ever emitted
reports a face different from unknown. -/
theorem first_orientation_message_not_unknown :
    application_init_state.last_face = Face.unknown ∧
    (∀ (s : AppState) (g : GVector), s.last_face = Face.unknown →
      twr_dice_get_face g = Face.unknown →
      lis2dh12_event_handler s Lis2dh12Event.update (some g) = (s, [])) ∧
    (∀ (evs : List Event) (f : Face),
      (orientationMsgs (run application_init_state evs).2).head? = some f →
      f ≠ Face.unknown) := by
  refine ⟨rfl, ?_, fun evs f => run_first_orientation_face evs application_init_state rfl f⟩
  intro s g h1 h2
  simp [lis2dh12_event_handler, h1, h2]

/-- C9 witness: from the fresh state a zero sample (classifying to
unknown) is a silent no-op, and the run delivering one flat sample has a
first orientation message whose face is not unknown. -/
theorem first_orientation_message_not_unknown_witness :
    lis2dh12_event_handler application_init_state Lis2dh12Event.update
        (some { x_axis := 0, y_axis := 0, z_axis := 0 }) = (application_init_state, []) ∧
    Face.face1 ≠ Face.unknown :=
  ⟨first_orientation_message_not_unknown.2.1 application_init_state
      { x_axis := 0, y_axis := 0, z_axis := 0 } rfl
      (by norm_num [twr_dice_get_face, DICE_CONFIDENCE]),
   first_orientation_message_not_unknown.2.2
      [Event.lis2dh12Ev Lis2dh12Event.update (some { x_axis := 0, y_axis := 0, z_axis := 1 })]
      Face.face1
      (by
        norm_num [run, step, run_cons, orientationMsgs, lis2dh12_event_handler,
          twr_dice_get_face, application_init_state, DICE_CONFIDENCE]
        decide)⟩

/-- Helper: once the exit task is unregistered, dispatching any single
event preserves both sensor update intervals and keeps the task
unregistered. -/
theorem step_preserves_intervals (s : AppState) (e : Event)
    (hreg : s.exit_task_registered = false) :
    (step s e).1.tmp112_update_interval = s.tmp112_update_interval ∧
    (step s e).1.lis2dh12_update_interval = s.lis2dh12_update_interval ∧
    (step s e).1.exit_task_registered = false := by
  cases e with
  | buttonEv be now =>
      cases be with
      | click => simp [step, button_event_handler, hreg]
      | hold => simp [step, button_event_handler, hreg]
      | press => simp [step, button_event_handler, hreg]
      | release =>
          simp only [step, button_event_handler]
          split <;> simp [hreg]
  | batteryEv v => simp [step, hreg]
  | tmp112Ev te now r =>
      cases te with
      | error => simp [step, tmp112_event_handler, hreg]
      | update =>
          cases r with
          | none => simp [step, tmp112_event_handler, hreg]
          | some t =>
              simp only [step, tmp112_event_handler]
              repeat' split
              all_goals simp [hreg]
  | lis2dh12Ev le r =>
      cases le with
      | error => simp [step, lis2dh12_event_handler, hreg]
      | update =>
          cases r with
          | none => simp [step, lis2dh12_event_handler, hreg]
          | some g =>
              simp only [step, lis2dh12_event_handler]
              split <;> simp [hreg]
  | schedulerFiresExitTask => simp [step, hreg]

/-- Helper: once the exit task is unregistered, any run of events
preserves both sensor update intervals and keeps the task unregistered. -/
theorem run_preserves_normal_mode (evs : List Event) : ∀ (s : AppState),
    s.exit_task_registered = false →
    (run s evs).1.tmp112_update_interval = s.tmp112_update_interval ∧
    (run s evs).1.lis2dh12_update_interval = s.lis2dh12_update_interval ∧
    (run s evs).1.exit_task_registered = false := by
  induction evs with
  | nil => intro s h; exact ⟨rfl, rfl, h⟩
  | cons e evs ih =>
      intro s h
      have hs := step_preserves_intervals s e h
      have hr := ih (step s e).1 hs.2.2
      exact ⟨hr.1.trans hs.1, hr.2.1.trans hs.2.1, hr.2.2⟩

/-- C3: both sensors start at the 1000-tick service update interval and
the exit task is registered (armed with delay `SERVICE_MODE_INTERVAL`,
i.e. 900000 ticks after init); the scheduler firing it runs
`exit_service_mode_task`, which sets both sensors to the 10000-tick
normal interval and unregisters itself; and after that, over every event
sequence, both intervals stay at the normal value, the task stays
unregistered, and a further scheduler firing is a no-op — the task never
fires again and nothing returns a sensor to the service interval. -/
theorem service_window_one_shot :
    application_init_state.tmp112_update_interval = TEMPERATURE_UPDATE_SERVICE_INTERVAL ∧
    application_init_state.lis2dh12_update_interval = ACCELEROMETER_UPDATE_SERVICE_INTERVAL ∧
    TEMPERATURE_UPDATE_SERVICE_INTERVAL = 1000 ∧
    ACCELEROMETER_UPDATE_SERVICE_INTERVAL = 1000 ∧
    SERVICE_MODE_INTERVAL = 900000 ∧
    application_init_state.exit_task_registered = true ∧
    step application_init_state Event.schedulerFiresExitTask
      = (exit_service_mode_task application_init_state, []) ∧
    (∀ s : AppState,
      (exit_service_mode_task s).tmp112_update_interval = TEMPERATURE_UPDATE_NORMAL_INTERVAL ∧
      (exit_service_mode_task s).lis2dh12_update_interval = ACCELEROMETER_UPDATE_NORMAL_INTERVAL ∧
      (exit_service_mode_task s).exit_task_registered = false) ∧
    TEMPERATURE_UPDATE_NORMAL_INTERVAL = 10000 ∧
    ACCELEROMETER_UPDATE_NORMAL_INTERVAL = 10000 ∧
    (∀ evs : List Event,
      (run (exit_service_mode_task application_init_state) evs).1.tmp112_update_interval
        = TEMPERATURE_UPDATE_NORMAL_INTERVAL ∧
      (run (exit_service_mode_task application_init_state) evs).1.lis2dh12_update_interval
        = ACCELEROMETER_UPDATE_NORMAL_INTERVAL ∧
      (run (exit_service_mode_task application_init_state) evs).1.exit_task_registered = false ∧
      step (run (exit_service_mode_task application_init_state) evs).1
          Event.schedulerFiresExitTask
        = ((run (exit_service_mode_task application_init_state) evs).1, [])) := by
  refine ⟨rfl, rfl, rfl, rfl, rfl, rfl, by simp [step, application_init_state],
    fun s => ⟨rfl, rfl, rfl⟩, rfl, rfl, fun evs => ?_⟩
  have h := run_preserves_normal_mode evs (exit_service_mode_task application_init_state) rfl
  exact ⟨h.1.trans rfl, h.2.1.trans rfl, h.2.2, by simp [step, h.2.2]⟩

/-- C4: a press followed by a release with no hold-timer expiry in
between (release before the hold threshold) produces exactly one clicked
message — no hold-fired and no hold-released message — incrementing the
click counter (modulo the `uint16_t` range, hence by exactly one below
the maximum) and leaving the hold counter unchanged; and a release event
reaching the handler with no hold pending produces no hold-duration
emission and no state change at all. -/
theorem click_yields_single_clicked :
    (∀ (s : AppState) (t0 t1 : Nat),
      (button_system_run DriverPhase.idle s
          [RawButton.rawPress t0, RawButton.rawRelease t1]).2.2
        = [Msg.button ((s.button_click_count + 1) % UINT16_MOD)] ∧
      (button_system_run DriverPhase.idle s
          [RawButton.rawPress t0, RawButton.rawRelease t1]).2.1.button_click_count
        = (s.button_click_count + 1) % UINT16_MOD ∧
      (button_system_run DriverPhase.idle s
          [RawButton.rawPress t0, RawButton.rawRelease t1]).2.1.button_hold_count
        = s.button_hold_count) ∧
    (∀ (s : AppState) (t0 t1 : Nat), s.button_click_count + 1 < UINT16_MOD →
      (button_system_run DriverPhase.idle s
          [RawButton.rawPress t0, RawButton.rawRelease t1]).2.1.button_click_count
        = s.button_click_count + 1) ∧
    (∀ (s : AppState) (now : Nat), s.button_hold_event = false →
      button_event_handler s TwrButtonEvent.release now = (s, [])) := by
  have hmain : ∀ (s : AppState) (t0 t1 : Nat),
      (button_system_run DriverPhase.idle s
          [RawButton.rawPress t0, RawButton.rawRelease t1]).2.2
        = [Msg.button ((s.button_click_count + 1) % UINT16_MOD)] ∧
      (button_system_run DriverPhase.idle s
          [RawButton.rawPress t0, RawButton.rawRelease t1]).2.1.button_click_count
        = (s.button_click_count + 1) % UINT16_MOD ∧
      (button_system_run DriverPhase.idle s
          [RawButton.rawPress t0, RawButton.rawRelease t1]).2.1.button_hold_count
        = s.button_hold_count := by
    intro s t0 t1
    simp [button_system_run, button_system_step, twr_button_driver, deliver,
      button_event_handler]
  refine ⟨hmain, fun s t0 t1 hlt => ?_, fun s now h => ?_⟩
  · rw [(hmain s t0 t1).2.1, Nat.mod_eq_of_lt hlt]
  · simp [button_event_handler, h]

/-- C4 witness: from the initial state, press at tick 5 and release at
tick 20 leave the click counter at one, and a release with no hold
pending is a silent no-op. -/
theorem click_yields_single_clicked_witness :
    (button_system_run DriverPhase.idle application_init_state
        [RawButton.rawPress 5, RawButton.rawRelease 20]).2.1.button_click_count
      = application_init_state.button_click_count + 1 ∧
    button_event_handler application_init_state TwrButtonEvent.release 9
      = (application_init_state, []) :=
  ⟨click_yields_single_clicked.2.1 application_init_state 5 20 (by decide),
   click_yields_single_clicked.2.2 application_init_state 9 rfl⟩

/-- C5: a press at `t0`, the hold timer expiring at `t0 + thr`, and a
release at `t2 ≥ t0 + thr` produce exactly one hold-fired message and
then exactly one hold-released message whose duration is
`now - press_tick = t2 - t0` and is at least the hold threshold `thr`;
the hold counter is incremented (modulo the `uint16_t` range), the click
counter is untouched, the press tick was recorded and the hold-pending
flag cleared by the press, and the flag is set when the hold fires. -/
theorem hold_yields_fired_then_released (thr : Nat) (s : AppState) (t0 t2 : Nat)
    (hrel : t0 + thr ≤ t2) :
    (button_system_run DriverPhase.idle s
        [RawButton.rawPress t0, RawButton.rawHoldElapse (t0 + thr),
         RawButton.rawRelease t2]).2.2
      = [Msg.buttonHold ((s.button_hold_count + 1) % UINT16_MOD),
         Msg.buttonHoldDuration ((t2 : Int) - (t0 : Int))] ∧
    ((t2 : Int) - (t0 : Int)) ≥ (thr : Int) ∧
    (button_system_run DriverPhase.idle s
        [RawButton.rawPress t0, RawButton.rawHoldElapse (t0 + thr),
         RawButton.rawRelease t2]).2.1.button_hold_count
      = (s.button_hold_count + 1) % UINT16_MOD ∧
    (button_system_run DriverPhase.idle s
        [RawButton.rawPress t0, RawButton.rawHoldElapse (t0 + thr),
         RawButton.rawRelease t2]).2.1.button_click_count
      = s.button_click_count ∧
    (button_system_run DriverPhase.idle s
        [RawButton.rawPress t0]).2.1.tick_start_button_press = t0 ∧
    (button_system_run DriverPhase.idle s
        [RawButton.rawPress t0]).2.1.button_hold_event = false ∧
    (button_system_run DriverPhase.idle s
        [RawButton.rawPress t0, RawButton.rawHoldElapse (t0 + thr),
         RawButton.rawRelease t2]).2.1.button_hold_event = true := by
  refine ⟨?_, by omega, ?_, ?_, ?_, ?_, ?_⟩ <;>
    simp [button_system_run, button_system_step, twr_button_driver, deliver,
      button_event_handler]

/-- C5 witness: press at tick 100, hold timer expiry at 2100, release at
tick 3000 from the initial state. -/
theorem hold_yields_fired_then_released_witness :
    (button_system_run DriverPhase.idle application_init_state
        [RawButton.rawPress 100, RawButton.rawHoldElapse (100 + 2000),
         RawButton.rawRelease 3000]).2.2
      = [Msg.buttonHold ((application_init_state.button_hold_count + 1) % UINT16_MOD),
         Msg.buttonHoldDuration ((3000 : Int) - (100 : Int))] ∧
    ((3000 : Int) - (100 : Int)) ≥ (2000 : Int) ∧
    (button_system_run DriverPhase.idle application_init_state
        [RawButton.rawPress 100, RawButton.rawHoldElapse (100 + 2000),
         RawButton.rawRelease 3000]).2.1.button_hold_count
      = (application_init_state.button_hold_count + 1) % UINT16_MOD ∧
    (button_system_run DriverPhase.idle application_init_state
        [RawButton.rawPress 100, RawButton.rawHoldElapse (100 + 2000),
         RawButton.rawRelease 3000]).2.1.button_click_count
      = application_init_state.button_click_count ∧
    (button_system_run DriverPhase.idle application_init_state
        [RawButton.rawPress 100]).2.1.tick_start_button_press = 100 ∧
    (button_system_run DriverPhase.idle application_init_state
        [RawButton.rawPress 100]).2.1.button_hold_event = false ∧
    (button_system_run DriverPhase.idle application_init_state
        [RawButton.rawPress 100, RawButton.rawHoldElapse (100 + 2000),
         RawButton.rawRelease 3000]).2.1.button_hold_event = true :=
  hold_yields_fired_then_released 2000 application_init_state 100 3000 (by decide)
